import Mathlib

/-!
Verification development for `rna_draw/draw.py` (GTK-lab/rna_draw).

The definitions below are a shallow embedding of `draw.py`.  Modules of the
repository that are imported by `draw.py` but whose sources are not available
(`rna_draw/render_rna.py`, `rna_draw/colorer.py`, `rna_draw/parameters.py`)
are modelled from the specification; each such definition carries a doc
comment starting with "Modelled from the spec:".  Python floats are embedded
as `ℚ` for the layout coordinates (the operations used on them are min, max,
subtraction and multiplication) and as `ℝ` where the fractional power of the
figure-size formula appears.  Python exceptions are embedded as `Except`
values, named by the spec's error taxonomy.
-/

/-- Error taxonomy of the spec (section 7).  `draw.py` raises plain Python
exceptions (for example `ValueError` for an unknown render type); each
constructor stands for the corresponding error of the spec. -/
inductive DrawError
  | structureSyntax
  | unbalancedStructure
  | layoutError
  | unknownScheme
  | dataLengthMismatch
  | colorSpecSyntax
deriving DecidableEq, Repr

/-- Decidable equality for `Except`, used to evaluate concrete runs of the
embedded pipeline. -/
def Except.decEq {ε α : Type} [DecidableEq ε] [DecidableEq α] :
    (a b : Except ε α) → Decidable (a = b)
  | .ok x, .ok y =>
    if h : x = y then .isTrue (congrArg Except.ok h)
    else .isFalse (fun hc => h (Except.ok.inj hc))
  | .ok _, .error _ => .isFalse (fun hc => Except.noConfusion hc)
  | .error _, .ok _ => .isFalse (fun hc => Except.noConfusion hc)
  | .error e, .error f =>
    if h : e = f then .isTrue (congrArg Except.error h)
    else .isFalse (fun hc => h (Except.error.inj hc))

instance {ε α : Type} [DecidableEq ε] [DecidableEq α] : DecidableEq (Except ε α) :=
  Except.decEq

/-- An RGB color.  Concrete component values stand in for the palette
outputs of the external color libraries; no claim depends on them. -/
structure Color where
  r : ℚ
  g : ℚ
  b : ℚ
deriving DecidableEq, Repr

/-- Modelled from the spec: `colorer.DEFAULT_COLORS["e"]`, the default edge
color (`rna_draw/colorer.py` is not under `src/`); the spec only requires a
fixed default edge color, its RGB value is representative. -/
def defaultEdgeColor : Color := ⟨0, 0, 0⟩

/-- Modelled from the spec: the built-in fallback color of the
ColorResolver precedence chain (spec section 4.3, level 5). -/
def fallbackColor : Color := ⟨1, 1, 1⟩

/-- Modelled from the spec: `colorer.RenderType` (`rna_draw/colorer.py` is
not under `src/`); the three named schemes dispatched by
`__get_render_type` in `draw.py`. -/
inductive RenderType
  | RES_TYPE
  | PAIRED
  | STRAND
deriving DecidableEq, Repr

/-- Which bracket channel a character belongs to, and whether it opens the
channel.  Modelled from the spec: the dot-bracket alphabet of
`render_rna.get_pairmap_from_secstruct` (spec section 4.1: one stack per
bracket channel; round, square and curly channels). -/
def bracketChannel (c : Char) : Option (Nat × Bool) :=
  if c = '(' then some (0, true)
  else if c = ')' then some (0, false)
  else if c = '[' then some (1, true)
  else if c = ']' then some (1, false)
  else if c = Char.ofNat 123 then some (2, true)
  else if c = Char.ofNat 125 then some (2, false)
  else none

/-- Modelled from the spec: the stack-based scan of
`render_rna.get_pairmap_from_secstruct` (spec section 4.1).  One stack per
channel; an open symbol pushes its index, a close symbol pops and records a
pair, a close on an empty stack or a leftover open is an
`UnbalancedStructureError`, an unrecognized character is a
`StructureSyntaxError`. -/
def pairScan : List Char → Nat → List Nat → List Nat → List Nat →
    List (Nat × Nat) → Except DrawError (List (Nat × Nat))
  | [], _, st0, st1, st2, acc =>
    if st0.isEmpty && st1.isEmpty && st2.isEmpty then .ok acc.reverse
    else .error .unbalancedStructure
  | c :: rest, i, st0, st1, st2, acc =>
    if c = '.' then pairScan rest (i + 1) st0 st1 st2 acc
    else
      match bracketChannel c with
      | none => .error .structureSyntax
      | some (0, true) => pairScan rest (i + 1) (i :: st0) st1 st2 acc
      | some (0, false) =>
        match st0 with
        | [] => .error .unbalancedStructure
        | j :: st0t => pairScan rest (i + 1) st0t st1 st2 ((j, i) :: acc)
      | some (1, true) => pairScan rest (i + 1) st0 (i :: st1) st2 acc
      | some (1, false) =>
        match st1 with
        | [] => .error .unbalancedStructure
        | j :: st1t => pairScan rest (i + 1) st0 st1t st2 ((j, i) :: acc)
      | some (2, true) => pairScan rest (i + 1) st0 st1 (i :: st2) acc
      | some (2, false) =>
        match st2 with
        | [] => .error .unbalancedStructure
        | j :: st2t => pairScan rest (i + 1) st0 st1 st2t ((j, i) :: acc)
      | some _ => .error .structureSyntax

/-- Turn the recorded pair list into a pair map: index `i` maps to its
partner, and to the sentinel `-1` when unpaired (spec section 3,
PairingRelation). -/
def pairsToPairmap (n : Nat) (prs : List (Nat × Nat)) : List Int :=
  (List.range n).map (fun i =>
    match prs.find? (fun p => p.1 == i || p.2 == i) with
    | some p => if p.1 = i then (p.2 : Int) else (p.1 : Int)
    | none => -1)

/-- Modelled from the spec: `render_rna.get_pairmap_from_secstruct`
(`rna_draw/render_rna.py` is not under `src/`), the PairMapParser of spec
section 4.1. -/
def get_pairmap_from_secstruct (ss : String) : Except DrawError (List Int) :=
  (pairScan ss.data 0 [] [] [] []).map (pairsToPairmap ss.length)

/-- One entry of the pair list built in `RNADrawer.__render`
(draw.py lines 115-120): a dict with keys "from", "to", "p", "color". -/
structure Edge where
  fromIdx : Nat
  toIdx : Nat
  p : ℚ
  color : Color
deriving DecidableEq, Repr

/-- The pair-list loop of `RNADrawer.__render` (draw.py lines 115-120):
for each index `i` of the pair map with `pairmap[i] > i`, one entry
`{"from": i, "to": pairmap[i], "p": 1.0, "color": DEFAULT_COLORS["e"]}`. -/
def buildPairs (pm : List Int) : List Edge :=
  (List.range pm.length).filterMap (fun (i : Nat) =>
    if ((i : Int)) < pm.getD i (-1) then
      some ⟨i, (pm.getD i (-1)).toNat, 1, defaultEdgeColor⟩
    else none)

/-- `min` of a Python list of floats, as used on `r.xarray_` / `r.yarray_`
in `__render` (nonempty in every real run; the head is the default). -/
def minL (l : List ℚ) : ℚ := l.foldl min (l.headD 0)

/-- `max` of a Python list of floats, as used on `r.xarray_` / `r.yarray_`
in `__render`. -/
def maxL (l : List ℚ) : ℚ := l.foldl max (l.headD 0)

/-- The x extent `max(r.xarray_) - min(r.xarray_)` of `__render`. -/
def xext (xs : List ℚ) : ℚ := maxL xs - minL xs

/-- The height of the bounding box, `max(r.yarray_) - min(r.yarray_)`. -/
def boxHeight (ys : List ℚ) : ℚ := maxL ys - minL ys

/-- The guard of the figure-rescale branch of `__render` (draw.py line 151):
`if min(r.xarray_) != max(r.yarray_)`.  Note that it compares the minimum of
the x array with the maximum of the y array. -/
def rescaleGuard (xs ys : List ℚ) : Bool := decide (minL xs ≠ maxL ys)

/-- The figure-sizing step of `__render` (draw.py lines 151-158): when the
guard holds, each dimension is extent divided by `a * (area - b) ** c`
with `area` the product of the two extents and `(a, b, c)` the coefficients
returned by `curve_fit`; otherwise the figure keeps its previous (default)
size. -/
noncomputable def figSize (xs ys : List ℚ) (a b c : ℝ) (deflt : ℝ × ℝ) : ℝ × ℝ :=
  if rescaleGuard xs ys then
    (((xext xs : ℚ) : ℝ) /
        (a * (((xext xs : ℚ) : ℝ) * ((boxHeight ys : ℚ) : ℝ) - b) ^ c),
      ((boxHeight ys : ℚ) : ℝ) /
        (a * (((xext xs : ℚ) : ℝ) * ((boxHeight ys : ℚ) : ℝ) - b) ^ c))
  else deflt

/-- The width the claim's formula prescribes: bounding-box x extent divided
by `a * (area - b) ^ c` (spec section 4.4 model form); stated separately so
the code's sizing step can be compared against it. -/
noncomputable def claimedFigWidth (xs ys : List ℚ) (a b c : ℝ) : ℝ :=
  ((xext xs : ℚ) : ℝ) /
    (a * (((xext xs : ℚ) : ℝ) * ((boxHeight ys : ℚ) : ℝ) - b) ^ c)

/-- The height the claim's formula prescribes: bounding-box y extent over
the same denominator as the width (spec section 4.4 model form). -/
noncomputable def claimedFigHeight (xs ys : List ℚ) (a b c : ℝ) : ℝ :=
  ((boxHeight ys : ℚ) : ℝ) /
    (a * (((xext xs : ℚ) : ℝ) * ((boxHeight ys : ℚ) : ℝ) - b) ^ c)

example : get_pairmap_from_secstruct "((..))" = .ok [5, 4, -1, -1, 1, 0] := by decide
example : rescaleGuard [0, 10] [5, 5] = true := by decide
example : rescaleGuard [5, 10] [0, 5] = false := by decide

/-- Modelled from the spec: `parameters.DrawParameters`
(`rna_draw/parameters.py` is not under `src/`): the SpacingParameters of
spec section 3 (node radius, primary-strand spacing, pair spacing, cell
padding) plus the letter-rendering flag used by `__render`; immutable
configuration.  The concrete default values are representative. -/
structure DrawParameters where
  NODE_R : ℚ
  PRIMARY_SPACE : ℚ
  PAIR_SPACE : ℚ
  CELL_PADDING : ℚ
  RENDER_IN_LETTERS : Bool
deriving DecidableEq, Repr

/-- The default `parameters.DrawParameters()` built in `RNADrawer.__init__`. -/
def defaultDrawParameters : DrawParameters := ⟨10, 20, 23, 40, true⟩

/-- The `colorer.Data` object built by `__get_data_from_args`
(draw.py lines 172-180); the `Data` class lives in `rna_draw/colorer.py`,
which is not under `src/`, so it is modelled from the spec as a record of
the raw data-coloring inputs (spec section 6). -/
structure Data where
  data_str : Option String
  data_file : Option String
  palette : Option String
  vmin : Option String
  vmax : Option String
  ignore_restype : Option String
deriving DecidableEq, Repr

/-- Modelled from the spec: the number of values of a supplied data series
(spec section 6: "data values by res separated by ;"); used for the
DataLengthMismatchError check of spec section 4.3. -/
def dataLen (d : Data) : Nat :=
  match d.data_str with
  | some s => (s.splitOn ";").length
  | none => 0

/-- Modelled from the spec: `colorer.parse_color_code`
(`rna_draw/colorer.py` is not under `src/`): maps a color name to an RGB
color; a malformed color description fails with ColorSpecSyntaxError
(spec section 4.3).  The name table is representative. -/
def parse_color_code (s : String) : Except DrawError Color :=
  if s = "red" then .ok ⟨1, 0, 0⟩
  else if s = "green" then .ok ⟨0, 1, 0⟩
  else if s = "blue" then .ok ⟨0, 0, 1⟩
  else if s = "black" then .ok ⟨0, 0, 0⟩
  else if s = "white" then .ok ⟨1, 1, 1⟩
  else .error .colorSpecSyntax

/-- Modelled from the spec: well-formedness of the per-range color
mini-language (spec section 9: comma-separated `start-end:colorname`
tokens). -/
def wellFormedColorStr (s : String) : Bool :=
  (s.splitOn ",").all (fun t => (t.splitOn ":").length == 2)

/-- Modelled from the spec: the color contributed to residue `i` by one
range token of the per-range description, when the token covers `i`
(1-indexed ranges). -/
def rangeTokenCovers (t : String) (i : Nat) : Option Color :=
  match t.splitOn ":" with
  | [rng, cname] =>
    match rng.splitOn "-" with
    | [a, b] =>
      match a.toNat?, b.toNat? with
      | some x, some y =>
        if x ≤ i + 1 ∧ i + 1 ≤ y then (parse_color_code cname).toOption else none
      | _, _ => none
    | _ => none
  | _ => none

/-- The character of the sequence at residue `i` (blank when absent). -/
def seqChar (seq : String) (i : Nat) : Char := seq.data.getD i ' '

/-- Whether a dot-bracket character denotes a paired residue. -/
def isBracketChar (c : Char) : Bool := (bracketChannel c).isSome

/-- Modelled from the spec: the color of one residue under a named scheme
(spec section 4.3, precedence level 3: by nucleotide identity, by
paired/unpaired status, by strand membership).  RGB values are
representative; the spec fixes none. -/
def schemeColor (t : RenderType) (c : Char) (paired : Bool) : Color :=
  match t with
  | .RES_TYPE =>
    if c = 'A' then ⟨1, 1, 0⟩
    else if c = 'C' then ⟨0, 1, 0⟩
    else if c = 'G' then ⟨1, 0, 0⟩
    else if c = 'U' then ⟨0, 1, 1⟩
    else ⟨1 / 2, 1 / 2, 1 / 2⟩
  | .PAIRED => if paired then ⟨3 / 5, 3 / 5, 3 / 5⟩ else ⟨9 / 10, 9 / 10, 9 / 10⟩
  | .STRAND => ⟨2 / 5, 3 / 5, 4 / 5⟩

/-- Modelled from the spec: whether the data series colors residue `i`
(spec section 4.3: residues whose nucleotide identity is in the ignore-set
fall through to the next precedence level). -/
def dataApplies (dat : Option Data) (c : Char) : Bool :=
  match dat with
  | some d => !((d.ignore_restype.getD "").data.contains c)
  | none => false

/-- Modelled from the spec: the palette color of a data value (spec
section 4.3); a representative constant, since the palette itself is an
external library. -/
def dataColor : Color := ⟨1 / 2, 1 / 2, 1 / 2⟩

/-- Modelled from the spec: the resolved color of residue `i`
(spec section 4.3 precedence: explicit range description, then data series,
then named scheme, then supplied default, then built-in fallback). -/
def resColor (seq ss : String) (cs : Option String) (dat : Option Data)
    (rt : Option RenderType) (dc : Option Color) (i : Nat) : Color :=
  match cs.bind (fun s => (s.splitOn ",").findSome? (fun t => rangeTokenCovers t i)) with
  | some col => col
  | none =>
    if dataApplies dat (seqChar seq i) then dataColor
    else
      match rt with
      | some t => schemeColor t (seqChar seq i) (isBracketChar (seqChar ss i))
      | none => dc.getD fallbackColor

/-- Modelled from the spec: `Colorer.get_rgb_colors`
(`rna_draw/colorer.py` is not under `src/`): the ColorResolver contract of
spec section 4.3.  It fails with ColorSpecSyntaxError on a malformed
per-range description and with DataLengthMismatchError when a supplied data
series length differs from the residue count; otherwise it returns one
color per residue (count equal to the structure length).  The palette
argument selects names in an external library and does not change the
outcome structure. -/
def get_rgb_colors (_pal : Option String) (seq ss : String) (cs : Option String)
    (dat : Option Data) (rt : Option RenderType) (dc : Option Color) :
    Except DrawError (List Color) :=
  if cs.any (fun s => !wellFormedColorStr s) then .error .colorSpecSyntax
  else
    match dat with
    | some d =>
      if dataLen d = ss.length then
        .ok ((List.range ss.length).map (resColor seq ss cs dat rt dc))
      else .error .dataLengthMismatch
    | none => .ok ((List.range ss.length).map (resColor seq ss cs dat rt dc))

/-- The abstract interface of `render_rna.RNARenderer.setup_tree` plus the
coordinate arrays it produces: the TreeLayoutEngine of spec section 4.2,
which lives in `rna_draw/render_rna.py` (not under `src/`).  The pipeline
below is parametric in it; a `LayoutError` failure is permitted by the
contract. -/
abbrev LayoutFn := String → DrawParameters → Except DrawError (List ℚ × List ℚ)

/-- The calibration table built inline in `RNADrawer.__render`
(draw.py lines 136-140). -/
structure CalibRow where
  rna_identity : String
  rna_area : ℚ
  rna_figsize_variable : ℚ
deriving DecidableEq, Repr

/-- The constant calibration dataset of `RNADrawer.__render`
(draw.py lines 136-140). -/
def calibData : List CalibRow :=
  [⟨"hairpin", 3781, 25⟩,
   ⟨"t-RNA", 126207, 30⟩,
   ⟨"CO-VID19 5\x27 UTR", 1150472, 35⟩,
   ⟨"50S Ribosome", 4286761, 40⟩]

/-- The observable outcome of one successful `RNADrawer.__render` run:
everything the rendering backend is handed, minus the pixel painting
(out of scope, spec section 1). -/
structure RenderResult where
  seqUsed : String
  colors : List Color
  pairs : List Edge
  usedParams : DrawParameters
  xs : List ℚ
  ys : List ℚ
  rescaled : Bool
deriving DecidableEq, Repr

/-- The outcome of one draw request: the result (or the error), the list of
image files written by `savefig`, and one fit event (the dataset passed to
`curve_fit`) per `curve_fit` invocation. -/
abbrev DrawOut := Except DrawError RenderResult × List String × List (List CalibRow)

/-- The `RNADrawer` instance state: the `Colorer` built in `__init__`
(whose palette `draw` may set, draw.py lines 98-99) and the stored
`__draw_params` (draw.py lines 80, 107-109). -/
structure RNADrawer where
  colorerPalette : Option String
  drawParams : DrawParameters
deriving DecidableEq, Repr

/-- `RNADrawer.__init__` (draw.py lines 78-80). -/
def RNADrawer.init : RNADrawer := ⟨none, defaultDrawParameters⟩

/-- `RNADrawer.__setup` (draw.py lines 107-109): a non-None `draw_params`
replaces the stored `self.__draw_params`. -/
def RNADrawer.setup (s : RNADrawer) (dp : Option DrawParameters) : RNADrawer :=
  match dp with
  | some p => ⟨s.colorerPalette, p⟩
  | none => s

/-- The palette update of `draw` (draw.py lines 98-99):
`self.__colorer.color_palette(color_palette)` when a palette is given. -/
def RNADrawer.withPalette (s : RNADrawer) (cp : Option String) : RNADrawer :=
  match cp with
  | some pal => ⟨some pal, s.drawParams⟩
  | none => s

/-- `RNADrawer.__render` (draw.py lines 111-168): build the pair map and
pair list, lay the tree out, fit the calibration curve, size the figure,
draw, and only then `savefig`.  Any failing step aborts the run with no
file written. -/
def renderStep (lf : LayoutFn) (seqS ss : String) (colors : List Color)
    (filename : String) (params : DrawParameters) : DrawOut :=
  match get_pairmap_from_secstruct ss with
  | .error e => (.error e, [], [])
  | .ok pm =>
    match lf ss params with
    | .error e => (.error e, [], [])
    | .ok (xs, ys) =>
      (.ok ⟨seqS, colors, buildPairs pm, params, xs, ys, rescaleGuard xs ys⟩,
        [filename ++ ".png"], [calibData])

/-- `" " * len(ss)`, the blank sequence substituted by `draw` when no
sequence is supplied (draw.py lines 95-96). -/
def spaces (n : Nat) : String := String.mk (List.replicate n ' ')

/-- `RNADrawer.draw` (draw.py lines 82-105): store a supplied
`draw_params`, substitute a blank sequence for None, set a supplied
palette, resolve the colors, and render. -/
def RNADrawer.draw (s : RNADrawer) (lf : LayoutFn) (ss : String)
    (seq : Option String) (filename : String) (colorStr : Option String)
    (renderType : Option RenderType) (defaultColor : Option Color)
    (colorPalette : Option String) (dat : Option Data)
    (drawParams : Option DrawParameters) : DrawOut × RNADrawer :=
  let s1 := s.setup drawParams
  let seqS := match seq with
    | none => spaces ss.length
    | some q => q
  let s2 := s1.withPalette colorPalette
  match get_rgb_colors s2.colorerPalette seqS ss colorStr dat renderType defaultColor with
  | .error e => ((.error e, [], []), s2)
  | .ok colors => (renderStep lf seqS ss colors filename s2.drawParams, s2)

/-- The parsed argparse namespace of `get_parser` (draw.py lines 19-68):
`-ss` is required, `-out` defaults to "secstruct", every other option
defaults to None. -/
structure Args where
  ss : String
  seq : Option String
  out : String
  color_str : Option String
  render_type : Option String
  color_palette : Option String
  default_color : Option String
  data_str : Option String
  data_file : Option String
  data_palette : Option String
  data_vmin : Option String
  data_vmax : Option String
  data_ignore_restype : Option String
deriving DecidableEq, Repr

/-- `__get_data_from_args` (draw.py lines 171-182): a `Data` object when a
data string or data file was supplied, otherwise None. -/
def __get_data_from_args (args : Args) : Option Data :=
  if args.data_str.isSome || args.data_file.isSome then
    some ⟨args.data_str, args.data_file, args.data_palette,
      args.data_vmin, args.data_vmax, args.data_ignore_restype⟩
  else none

/-- `render_type_name.lower()`: character-wise ASCII lowering, stated over
the character list so concrete runs evaluate. -/
def strToLower (s : String) : String := String.mk (s.data.map Char.toLower)

/-- `__get_render_type` (draw.py lines 185-198): None passes through,
recognized names resolve case-insensitively, "none" resolves to no scheme,
anything else raises (the UnknownSchemeError of the spec's taxonomy). -/
def __get_render_type (render_type_name : Option String) :
    Except DrawError (Option RenderType) :=
  match render_type_name with
  | none => .ok none
  | some nm =>
    let n := strToLower nm
    if n = "res_type" then .ok (some .RES_TYPE)
    else if n = "paired" then .ok (some .PAIRED)
    else if n = "strand" then .ok (some .STRAND)
    else if n = "none" then .ok none
    else .error .unknownScheme

/-- The default-color resolution of `__rna_draw_from_args`
(draw.py lines 204-206). -/
def defaultColorFromArgs (args : Args) : Except DrawError (Option Color) :=
  match args.default_color with
  | none => .ok none
  | some s => (parse_color_code s).map some

/-- `__rna_draw_from_args` (draw.py lines 201-215): build the data object,
resolve the render type and default color, construct a fresh `RNADrawer`
and call its `draw`. -/
def __rna_draw_from_args (lf : LayoutFn) (args : Args) : DrawOut :=
  let dat := __get_data_from_args args
  match __get_render_type args.render_type with
  | .error e => (.error e, [], [])
  | .ok rt =>
    match defaultColorFromArgs args with
    | .error e => (.error e, [], [])
    | .ok dc =>
      (RNADrawer.init.draw lf args.ss args.seq args.out args.color_str rt dc
        args.color_palette dat none).1

/-- A keyword-argument value of `rna_draw(**kwargs)`: a plain string or a
`pathlib.Path` (draw.py lines 223-224 convert the latter with `str`). -/
inductive ArgValue
  | str (s : String)
  | path (p : String)
deriving DecidableEq, Repr

/-- The `str(v)` conversion applied before appending the value
(draw.py lines 223-225). -/
def ArgValue.toArgString : ArgValue → String
  | .str s => s
  | .path p => p

/-- The argument list built by `rna_draw` (draw.py lines 220-225): each key
prefixed with "-", followed by its (stringified) value. -/
def toArgList (kwargs : List (String × ArgValue)) : List String :=
  (kwargs.map (fun kv => ["-" ++ kv.1, kv.2.toArgString])).flatten

/-- Failures of the external argparse parser, modelled from its documented
command-line behavior. -/
inductive ParseError
  | unknownFlag
  | expectedArgument
  | unrecognizedToken
  | missingRequired
deriving DecidableEq, Repr

/-- The namespace under construction while scanning the token list. -/
structure PartialArgs where
  ss : Option String
  seq : Option String
  out : Option String
  color_str : Option String
  render_type : Option String
  color_palette : Option String
  default_color : Option String
  data_str : Option String
  data_file : Option String
  data_palette : Option String
  data_vmin : Option String
  data_vmax : Option String
  data_ignore_restype : Option String
deriving DecidableEq, Repr

/-- The empty namespace the scan starts from. -/
def emptyPartialArgs : PartialArgs :=
  ⟨none, none, none, none, none, none, none, none, none, none, none, none, none⟩

/-- Assign one declared option of `get_parser`; None for an undeclared
option name. -/
def setArg (p : PartialArgs) (name v : String) : Option PartialArgs :=
  if name = "ss" then some ⟨some v, p.seq, p.out, p.color_str, p.render_type, p.color_palette, p.default_color, p.data_str, p.data_file, p.data_palette, p.data_vmin, p.data_vmax, p.data_ignore_restype⟩
  else if name = "seq" then some ⟨p.ss, some v, p.out, p.color_str, p.render_type, p.color_palette, p.default_color, p.data_str, p.data_file, p.data_palette, p.data_vmin, p.data_vmax, p.data_ignore_restype⟩
  else if name = "out" then some ⟨p.ss, p.seq, some v, p.color_str, p.render_type, p.color_palette, p.default_color, p.data_str, p.data_file, p.data_palette, p.data_vmin, p.data_vmax, p.data_ignore_restype⟩
  else if name = "color_str" then some ⟨p.ss, p.seq, p.out, some v, p.render_type, p.color_palette, p.default_color, p.data_str, p.data_file, p.data_palette, p.data_vmin, p.data_vmax, p.data_ignore_restype⟩
  else if name = "render_type" then some ⟨p.ss, p.seq, p.out, p.color_str, some v, p.color_palette, p.default_color, p.data_str, p.data_file, p.data_palette, p.data_vmin, p.data_vmax, p.data_ignore_restype⟩
  else if name = "color_palette" then some ⟨p.ss, p.seq, p.out, p.color_str, p.render_type, some v, p.default_color, p.data_str, p.data_file, p.data_palette, p.data_vmin, p.data_vmax, p.data_ignore_restype⟩
  else if name = "default_color" then some ⟨p.ss, p.seq, p.out, p.color_str, p.render_type, p.color_palette, some v, p.data_str, p.data_file, p.data_palette, p.data_vmin, p.data_vmax, p.data_ignore_restype⟩
  else if name = "data_str" then some ⟨p.ss, p.seq, p.out, p.color_str, p.render_type, p.color_palette, p.default_color, some v, p.data_file, p.data_palette, p.data_vmin, p.data_vmax, p.data_ignore_restype⟩
  else if name = "data_file" then some ⟨p.ss, p.seq, p.out, p.color_str, p.render_type, p.color_palette, p.default_color, p.data_str, some v, p.data_palette, p.data_vmin, p.data_vmax, p.data_ignore_restype⟩
  else if name = "data_palette" then some ⟨p.ss, p.seq, p.out, p.color_str, p.render_type, p.color_palette, p.default_color, p.data_str, p.data_file, some v, p.data_vmin, p.data_vmax, p.data_ignore_restype⟩
  else if name = "data_vmin" then some ⟨p.ss, p.seq, p.out, p.color_str, p.render_type, p.color_palette, p.default_color, p.data_str, p.data_file, p.data_palette, some v, p.data_vmax, p.data_ignore_restype⟩
  else if name = "data_vmax" then some ⟨p.ss, p.seq, p.out, p.color_str, p.render_type, p.color_palette, p.default_color, p.data_str, p.data_file, p.data_palette, p.data_vmin, some v, p.data_ignore_restype⟩
  else if name = "data_ignore_restype" then some ⟨p.ss, p.seq, p.out, p.color_str, p.render_type, p.color_palette, p.default_color, p.data_str, p.data_file, p.data_palette, p.data_vmin, p.data_vmax, some v⟩
  else none

/-- Whether a token is treated as an option by argparse (leading dash). -/
def startsDash (s : String) : Bool := s.data.headD ' ' == '-'

/-- Modelled from the spec: the scan of the external argparse parser over
the token list (spec section 1 treats argument parsing as thin external
glue): "-name value" pairs over the options declared by `get_parser`. -/
def parseTokens : List String → PartialArgs → Except ParseError PartialArgs
  | [], p => .ok p
  | t :: rest, p =>
    if startsDash t then
      match rest with
      | [] => .error .expectedArgument
      | v :: rest2 =>
        if startsDash v then .error .expectedArgument
        else
          match setArg p (t.drop 1) v with
          | none => .error .unknownFlag
          | some p2 => parseTokens rest2 p2
    else .error .unrecognizedToken

/-- Finalize the namespace: `-ss` is required; `-out` defaults to
"secstruct" (draw.py lines 21-27). -/
def finalizeArgs (p : PartialArgs) : Except ParseError Args :=
  match p.ss with
  | none => .error .missingRequired
  | some s =>
    .ok ⟨s, p.seq, p.out.getD "secstruct", p.color_str, p.render_type,
      p.color_palette, p.default_color, p.data_str, p.data_file,
      p.data_palette, p.data_vmin, p.data_vmax, p.data_ignore_restype⟩

/-- `parser.parse_args(tokens)`: scan and finalize. -/
def parseArgsList (tokens : List String) : Except ParseError Args :=
  match parseTokens tokens emptyPartialArgs with
  | .error e => .error e
  | .ok p => finalizeArgs p

/-- Run `__rna_draw_from_args` on a parse outcome (a parse failure aborts
before any drawing). -/
def runParsed (lf : LayoutFn) : Except ParseError Args → Except ParseError DrawOut
  | .error e => .error e
  | .ok args => .ok (__rna_draw_from_args lf args)

/-- `rna_draw(**kwargs)` (draw.py lines 218-227): build the dash-prefixed
argument list, parse it with `get_parser`'s parser, and run
`__rna_draw_from_args` on the namespace. -/
def rna_draw (lf : LayoutFn) (kwargs : List (String × ArgValue)) :
    Except ParseError DrawOut :=
  runParsed lf (parseArgsList (toArgList kwargs))

/-- `main` (draw.py lines 230-232): parse the command line with the same
parser and run `__rna_draw_from_args` on the namespace (named `mainCli`
because Lean reserves `main` for executables). -/
def mainCli (lf : LayoutFn) (argv : List String) : Except ParseError DrawOut :=
  runParsed lf (parseArgsList argv)

/-- A concrete layout function standing in for the external
`RNARenderer.setup_tree`, used to evaluate the pipeline on concrete
inputs. -/
def lfConst : LayoutFn := fun _ _ => .ok ([0, 10], [0, 5])

/-- The final state returned by `draw` is the entry state with a supplied
`draw_params` stored and a supplied palette set, whatever the outcome. -/
theorem draw_state (s : RNADrawer) (lf : LayoutFn) (ss : String) (seq : Option String)
    (fn : String) (cs : Option String) (rt : Option RenderType) (dc : Option Color)
    (cp : Option String) (dat : Option Data) (dp : Option DrawParameters) :
    (s.draw lf ss seq fn cs rt dc cp dat dp).2 = (s.setup dp).withPalette cp := by
  unfold RNADrawer.draw
  dsimp only
  split <;> rfl

/-- C1: the figure-sizing step is claimed to skip the area-based rescale for
every zero-height layout.  The guard of draw.py line 151 compares
`min(xarray)` with `max(yarray)` instead, so the layout with
x array `[0, 10]` and y array `[5, 5]` has a zero-height bounding box and
still takes the rescale branch, where the power law is evaluated on the
non-positive base `area - b = 0`: with representative coefficients
`a = 1, b = 0, c = 1/2` the computed size is not the untouched default. -/
theorem c1_zero_height_rescale_bug :
    boxHeight [(5 : ℚ), 5] = 0 ∧
    rescaleGuard [(0 : ℚ), 10] [(5 : ℚ), 5] = true ∧
    figSize [(0 : ℚ), 10] [(5 : ℚ), 5] 1 0 (1 / 2) (9, 9) ≠ (9, 9) := by
  refine ⟨by norm_num [boxHeight, maxL, minL], by decide, ?_⟩
  have hg : rescaleGuard [(0 : ℚ), 10] [(5 : ℚ), 5] = true := by decide
  have hx : xext [(0 : ℚ), 10] = 10 := by norm_num [xext, maxL, minL]
  have hy : boxHeight [(5 : ℚ), 5] = 0 := by norm_num [boxHeight, maxL, minL]
  simp only [figSize, hg, if_true, hx, hy]
  have h0 : ((10 : ℚ) : ℝ) * ((0 : ℚ) : ℝ) - 0 = 0 := by push_cast; ring
  rw [h0, Real.zero_rpow (by norm_num)]
  simp only [Prod.ext_iff, ne_eq, not_and]
  intro hw
  rw [mul_zero, div_zero] at hw
  norm_num at hw

/-- C4: counterexample to "every non-degenerate layout is sized by the
power-law formula": the layout with x array `[5, 10]` and y array `[0, 5]`
has a bounding box of height 5 (non-degenerate), yet `min(xarray) = 5 =
max(yarray)` makes the guard of draw.py line 151 false, so the figure keeps
its previous size `(9, 9)` instead of the claimed formula value `1/5`. -/
theorem c4_nondegenerate_not_rescaled :
    boxHeight [(0 : ℚ), 5] ≠ 0 ∧
    rescaleGuard [(5 : ℚ), 10] [(0 : ℚ), 5] = false ∧
    figSize [(5 : ℚ), 10] [(0 : ℚ), 5] 1 0 1 (9, 9) = (9, 9) ∧
    claimedFigWidth [(5 : ℚ), 10] [(0 : ℚ), 5] 1 0 1 = 1 / 5 ∧
    (9 : ℝ) ≠ 1 / 5 := by
  refine ⟨by norm_num [boxHeight, maxL, minL], by decide, ?_, ?_, by norm_num⟩
  · simp [figSize, show rescaleGuard [(5 : ℚ), 10] [(0 : ℚ), 5] = false from by decide]
  · have hx : xext [(5 : ℚ), 10] = 5 := by norm_num [xext, maxL, minL]
    have hy : boxHeight [(0 : ℚ), 5] = 5 := by norm_num [boxHeight, maxL, minL]
    simp only [claimedFigWidth, hx, hy]
    rw [Real.rpow_one]
    push_cast
    norm_num

/-- C4 (amended): whenever the guard of draw.py line 151 holds
(`min(xarray) ≠ max(yarray)`), each figure dimension is the bounding-box
extent divided by `a * (area - b) ^ c`, with `area` the product of the two
extents and the same denominator for width and height. -/
theorem c4_rescale_formula (xs ys : List ℚ) (a b c : ℝ) (deflt : ℝ × ℝ)
    (h : rescaleGuard xs ys = true) :
    figSize xs ys a b c deflt =
      (claimedFigWidth xs ys a b c, claimedFigHeight xs ys a b c) := by
  simp [figSize, h, claimedFigWidth, claimedFigHeight]

/-- Witness for C4 (amended) at the concrete layout `[0, 10] × [0, 5]`. -/
theorem c4_rescale_formula_witness :
    rescaleGuard [(0 : ℚ), 10] [(0 : ℚ), 5] = true ∧
    figSize [(0 : ℚ), 10] [(0 : ℚ), 5] 1 0 (1 / 2) (9, 9) =
      (claimedFigWidth [(0 : ℚ), 10] [(0 : ℚ), 5] 1 0 (1 / 2),
        claimedFigHeight [(0 : ℚ), 10] [(0 : ℚ), 5] 1 0 (1 / 2)) :=
  ⟨by decide, c4_rescale_formula _ _ _ _ _ _ (by decide)⟩

/-- C2: counterexample to "no component retains state between calls": on one
`RNADrawer` instance, a first call that supplies custom draw parameters
changes what a second call with `draw_params=None` renders with, while a
fresh instance called with `draw_params=None` renders with the defaults, so
two calls with identical arguments produce different results. -/
theorem c2_draw_params_leak :
    ((((RNADrawer.init.draw lfConst "((..))" none "secstruct" none none none none none
          (some ⟨11, 20, 23, 40, true⟩)).2).draw lfConst "((..))" none "secstruct" none
          none none none none none).1.1.toOption.map RenderResult.usedParams
        = some ⟨11, 20, 23, 40, true⟩) ∧
    ((RNADrawer.init.draw lfConst "((..))" none "secstruct" none none none none none
          none).1.1.toOption.map RenderResult.usedParams
        = some defaultDrawParameters) ∧
    (⟨11, 20, 23, 40, true⟩ : DrawParameters) ≠ defaultDrawParameters := by
  decide

/-- C2 (amended): `RNADrawer` does retain the draw parameters between calls:
a call that supplies `draw_params` stores them on the instance, and a call
with `draw_params=None` leaves the previously stored parameters in place,
so the None call renders with whatever the most recent supplying call
stored. -/
theorem c2_draw_params_persist (s : RNADrawer) (lf : LayoutFn) (ss : String)
    (seq : Option String) (fn : String) (cs : Option String) (rt : Option RenderType)
    (dc : Option Color) (cp : Option String) (dat : Option Data) (p : DrawParameters) :
    ((s.draw lf ss seq fn cs rt dc cp dat (some p)).2).drawParams = p ∧
    ((s.draw lf ss seq fn cs rt dc cp dat none).2).drawParams = s.drawParams := by
  rw [draw_state, draw_state]
  constructor
  · cases cp <;> rfl
  · cases cp <;> rfl

/-- C9: a call to `draw` with `seq=None` is the same call as one with a
blank sequence of the structure's length (draw.py lines 95-96), and that
blank sequence has length equal to the structure length. -/
theorem c9_blank_sequence (s : RNADrawer) (lf : LayoutFn) (ss : String) (fn : String)
    (cs : Option String) (rt : Option RenderType) (dc : Option Color)
    (cp : Option String) (dat : Option Data) (dp : Option DrawParameters) :
    s.draw lf ss none fn cs rt dc cp dat dp =
      s.draw lf ss (some (spaces ss.length)) fn cs rt dc cp dat dp ∧
    (spaces ss.length).length = ss.length := by
  refine ⟨rfl, ?_⟩
  simp [spaces]

/-- Draw parameters pass through the palette update unchanged. -/
theorem withPalette_drawParams (s : RNADrawer) (cp : Option String) :
    (s.withPalette cp).drawParams = s.drawParams := by
  cases cp <;> rfl

/-- Structural characterization of `__render`'s outputs: the png write and
the `curve_fit` event happen exactly when the run succeeds. -/
theorem renderStep_parts (lf : LayoutFn) (seqS ss : String) (colors : List Color)
    (fn : String) (params : DrawParameters) :
    ((renderStep lf seqS ss colors fn params).2.1 =
      (match (renderStep lf seqS ss colors fn params).1 with
        | .ok _ => [fn ++ ".png"] | .error _ => [])) ∧
    ((renderStep lf seqS ss colors fn params).2.2 =
      (match (renderStep lf seqS ss colors fn params).1 with
        | .ok _ => [calibData] | .error _ => [])) := by
  unfold renderStep
  cases get_pairmap_from_secstruct ss with
  | error e => exact ⟨rfl, rfl⟩
  | ok pm =>
    cases lf ss params with
    | error e => exact ⟨rfl, rfl⟩
    | ok xy => obtain ⟨xs, ys⟩ := xy; exact ⟨rfl, rfl⟩

/-- Structural characterization of `draw`'s outputs: the png write and the
`curve_fit` event happen exactly when the whole request succeeds. -/
theorem draw_parts (s : RNADrawer) (lf : LayoutFn) (ss : String) (seq : Option String)
    (fn : String) (cs : Option String) (rt : Option RenderType) (dc : Option Color)
    (cp : Option String) (dat : Option Data) (dp : Option DrawParameters) :
    ((s.draw lf ss seq fn cs rt dc cp dat dp).1.2.1 =
      (match (s.draw lf ss seq fn cs rt dc cp dat dp).1.1 with
        | .ok _ => [fn ++ ".png"] | .error _ => [])) ∧
    ((s.draw lf ss seq fn cs rt dc cp dat dp).1.2.2 =
      (match (s.draw lf ss seq fn cs rt dc cp dat dp).1.1 with
        | .ok _ => [calibData] | .error _ => [])) := by
  unfold RNADrawer.draw
  dsimp only
  cases get_rgb_colors ((s.setup dp).withPalette cp).colorerPalette
      (match seq with | none => spaces ss.length | some q => q) ss cs dat rt dc with
  | error e => exact ⟨rfl, rfl⟩
  | ok colors => exact renderStep_parts lf _ ss colors fn _

/-- C3 (amended): the orchestrator performs no sequence-length validation:
whenever color resolution succeeds, `draw` with any supplied sequence `q`
proceeds directly to the render step with `q` passed through unchanged,
with no comparison of `q.length` against the structure length. -/
theorem c3_no_length_validation (s : RNADrawer) (lf : LayoutFn) (ss q : String)
    (fn : String) (cs : Option String) (rt : Option RenderType) (dc : Option Color)
    (cp : Option String) (dat : Option Data) (dp : Option DrawParameters)
    (cols : List Color)
    (hc : get_rgb_colors ((s.setup dp).withPalette cp).colorerPalette q ss cs dat rt dc
        = .ok cols) :
    (s.draw lf ss (some q) fn cs rt dc cp dat dp).1 =
      renderStep lf q ss cols fn (s.setup dp).drawParams := by
  unfold RNADrawer.draw
  dsimp only
  rw [hc, withPalette_drawParams]

/-- Witness for C3 (amended): a sequence of length 2 with a structure of
length 6 is resolved and rendered without any failure. -/
theorem c3_no_length_validation_witness :
    get_rgb_colors none "AC" "((..))" none none none none =
      .ok [fallbackColor, fallbackColor, fallbackColor, fallbackColor, fallbackColor,
        fallbackColor] ∧
    (RNADrawer.init.draw lfConst "((..))" (some "AC") "secstruct" none none none none
        none none).1 =
      renderStep lfConst "AC" "((..))" [fallbackColor, fallbackColor, fallbackColor,
        fallbackColor, fallbackColor, fallbackColor] "secstruct" defaultDrawParameters :=
  ⟨by decide,
    c3_no_length_validation _ _ _ _ _ _ _ _ _ _ _ _ (by decide)⟩

/-- C3: counterexample to "a supplied sequence whose length differs from the
structure length is rejected before layout": the sequence "AC" (length 2)
with structure "((..))" (length 6) is not rejected — the request runs to
completion and writes the output image. -/
theorem c3_mismatched_sequence_accepted :
    ("AC".length ≠ "((..))".length) ∧
    (RNADrawer.init.draw lfConst "((..))" (some "AC") "secstruct" none none none none
        none none).1.2.1 = ["secstruct.png"] :=
  ⟨by decide, by decide⟩

/-- C5: scheme dispatch of `__get_render_type` (draw.py lines 185-198):
None passes through; "res_type", "paired", "strand" resolve
case-insensitively; "none" resolves to no scheme; every other keyword fails
with the UnknownSchemeError of the spec's taxonomy, and on that failure
`__rna_draw_from_args` aborts with no drawing, no file written and no fit
performed. -/
theorem c5_scheme_dispatch :
    __get_render_type none = .ok none ∧
    (∀ s : String, strToLower s = "res_type" →
      __get_render_type (some s) = .ok (some .RES_TYPE)) ∧
    (∀ s : String, strToLower s = "paired" →
      __get_render_type (some s) = .ok (some .PAIRED)) ∧
    (∀ s : String, strToLower s = "strand" →
      __get_render_type (some s) = .ok (some .STRAND)) ∧
    (∀ s : String, strToLower s = "none" → __get_render_type (some s) = .ok none) ∧
    (∀ s : String, strToLower s ≠ "res_type" → strToLower s ≠ "paired" →
      strToLower s ≠ "strand" → strToLower s ≠ "none" →
      __get_render_type (some s) = .error .unknownScheme) ∧
    (∀ (lf : LayoutFn) (args : Args) (e : DrawError),
      __get_render_type args.render_type = .error e →
      __rna_draw_from_args lf args = (.error e, [], [])) := by
  refine ⟨rfl, ?_, ?_, ?_, ?_, ?_, ?_⟩
  · intro s h; simp [__get_render_type, h]
  · intro s h; simp [__get_render_type, h]
  · intro s h; simp [__get_render_type, h]
  · intro s h; simp [__get_render_type, h]
  · intro s h1 h2 h3 h4; simp [__get_render_type, h1, h2, h3, h4]
  · intro lf args e h
    unfold __rna_draw_from_args
    dsimp only
    rw [h]

/-- Witness for C5 at concrete scheme keywords, including the pipeline
abort for the unrecognized keyword "Motif". -/
theorem c5_scheme_dispatch_witness :
    (strToLower "RES_type" = "res_type") ∧
    __get_render_type (some "RES_type") = .ok (some .RES_TYPE) ∧
    __get_render_type (some "Motif") = .error .unknownScheme ∧
    __rna_draw_from_args lfConst
      ⟨"((..))", none, "secstruct", none, some "Motif", none, none, none, none, none,
        none, none, none⟩ = (.error .unknownScheme, [], []) := by
  refine ⟨by decide, c5_scheme_dispatch.2.1 "RES_type" (by decide), ?_, ?_⟩
  · exact c5_scheme_dispatch.2.2.2.2.2.1 "Motif" (by decide) (by decide) (by decide)
      (by decide)
  · exact c5_scheme_dispatch.2.2.2.2.2.2 lfConst _ .unknownScheme
      (c5_scheme_dispatch.2.2.2.2.2.1 "Motif" (by decide) (by decide) (by decide)
        (by decide))

/-- C7: counterexample to "the coefficients are fitted exactly once and
never recomputed": every successful draw call performs its own `curve_fit`
of the inline calibration table (draw.py lines 136-149), so two calls on
the same instance produce two fit events, not one. -/
theorem c7_refit_every_call :
    (RNADrawer.init.draw lfConst "((..))" none "secstruct" none none none none none
        none).1.2.2 = [calibData] ∧
    (((RNADrawer.init.draw lfConst "((..))" none "secstruct" none none none none none
        none).2).draw lfConst "((..))" none "secstruct" none none none none none
        none).1.2.2 = [calibData] ∧
    ([calibData] ++ [calibData]).length ≠ 1 :=
  ⟨by decide, by decide, by decide⟩

/-- C7 (amended): the calibration dataset is a constant, but it is refit on
every render: each draw request performs exactly one `curve_fit` of the
same constant `calibData` when it succeeds and none when it fails, so all
requests fit identical data. -/
theorem c7_fit_per_render (s : RNADrawer) (lf : LayoutFn) (ss : String)
    (seq : Option String) (fn : String) (cs : Option String) (rt : Option RenderType)
    (dc : Option Color) (cp : Option String) (dat : Option Data)
    (dp : Option DrawParameters) :
    (s.draw lf ss seq fn cs rt dc cp dat dp).1.2.2 =
      (match (s.draw lf ss seq fn cs rt dc cp dat dp).1.1 with
        | .ok _ => [calibData] | .error _ => []) :=
  (draw_parts s lf ss seq fn cs rt dc cp dat dp).2

/-- C8: the `savefig` write is reached only after structure parsing, color
resolution and layout have all succeeded: a request that fails in any core
step produces an error outcome, no result and no written image file, while
a successful request writes exactly the requested png. -/
theorem c8_no_partial_output (lf : LayoutFn) (args : Args) :
    (__rna_draw_from_args lf args).2.1 =
      (match (__rna_draw_from_args lf args).1 with
        | .ok _ => [args.out ++ ".png"] | .error _ => []) := by
  unfold __rna_draw_from_args
  dsimp only
  cases __get_render_type args.render_type with
  | error e => rfl
  | ok rt =>
    cases defaultColorFromArgs args with
    | error e => rfl
    | ok dc => exact (draw_parts RNADrawer.init lf args.ss args.seq args.out
        args.color_str rt dc args.color_palette (__get_data_from_args args) none).1

/-- C10: `rna_draw(**kwargs)` builds the argument list by prefixing each
key with "-" and appending its value (Path values stringified), parses it
through the same `get_parser` parser as the command-line entry point, and
runs the same `__rna_draw_from_args` on the resulting namespace, so the two
entry points agree on every keyword mapping; the final conjunct evaluates
one concrete mapping to its parsed namespace. -/
theorem c10_kwargs_equiv (lf : LayoutFn) (kwargs : List (String × ArgValue)) :
    rna_draw lf kwargs = mainCli lf (toArgList kwargs) ∧
    rna_draw lf kwargs = runParsed lf (parseArgsList (toArgList kwargs)) ∧
    mainCli lf (toArgList kwargs) = runParsed lf (parseArgsList (toArgList kwargs)) ∧
    toArgList kwargs =
      (kwargs.map (fun kv => ["-" ++ kv.1, kv.2.toArgString])).flatten ∧
    parseArgsList (toArgList [("ss", .str "((..))"), ("seq", .path "ACGUAC")]) =
      .ok ⟨"((..))", some "ACGUAC", "secstruct", none, none, none, none, none, none,
        none, none, none, none⟩ :=
  ⟨rfl, rfl, rfl, rfl, by decide⟩

/-- Membership characterization of the pair list built by `__render`:
exactly the entries made from an index whose partner is larger. -/
theorem mem_buildPairs {pm : List Int} {e : Edge} :
    e ∈ buildPairs pm ↔ ∃ i, i < pm.length ∧ (i : Int) < pm.getD i (-1) ∧
      e = ⟨i, (pm.getD i (-1)).toNat, 1, defaultEdgeColor⟩ := by
  unfold buildPairs
  simp only [List.mem_filterMap, List.mem_range]
  constructor
  · rintro ⟨i, hi, hf⟩
    by_cases h : (i : Int) < pm.getD i (-1)
    · rw [if_pos h] at hf
      exact ⟨i, hi, h, (Option.some.inj hf).symm⟩
    · rw [if_neg h] at hf
      exact Option.noConfusion hf
  · rintro ⟨i, hi, h, he⟩
    exact ⟨i, hi, by rw [if_pos h, he]⟩

/-- C6: for every pairing relation satisfying the PairingRelation
invariants (partners in range and symmetric, as the parser guarantees), the
edge list handed to the renderer has exactly one entry per base pair: every
entry has from-index below to-index, carries the pair recorded in the map
in both directions, weight 1.0 and the default edge color; every pair with
the smaller index first is present; entries sharing either endpoint
coincide; the list has no duplicates; and unpaired residues contribute to
no entry. -/
theorem c6_edge_list (pm : List Int)
    (h1 : ∀ i, i < pm.length → pm.getD i (-1) < (pm.length : Int))
    (h2 : ∀ i, i < pm.length → ∀ j, j < pm.length →
      pm.getD i (-1) = (j : Int) → pm.getD j (-1) = (i : Int)) :
    (∀ e ∈ buildPairs pm,
      e.fromIdx < e.toIdx ∧ e.toIdx < pm.length ∧
      pm.getD e.fromIdx (-1) = (e.toIdx : Int) ∧
      pm.getD e.toIdx (-1) = (e.fromIdx : Int) ∧
      e.p = 1 ∧ e.color = defaultEdgeColor) ∧
    (∀ i j : Nat, i < j → j < pm.length → pm.getD i (-1) = (j : Int) →
      (⟨i, j, 1, defaultEdgeColor⟩ : Edge) ∈ buildPairs pm) ∧
    (∀ e1 ∈ buildPairs pm, ∀ e2 ∈ buildPairs pm,
      (e1.fromIdx = e2.fromIdx ∨ e1.toIdx = e2.toIdx) → e1 = e2) ∧
    (buildPairs pm).Nodup ∧
    (∀ i, i < pm.length → pm.getD i (-1) = -1 →
      ∀ e ∈ buildPairs pm, e.fromIdx ≠ i ∧ e.toIdx ≠ i) := by
  have hA : ∀ e ∈ buildPairs pm,
      e.fromIdx < e.toIdx ∧ e.toIdx < pm.length ∧
      pm.getD e.fromIdx (-1) = (e.toIdx : Int) ∧
      pm.getD e.toIdx (-1) = (e.fromIdx : Int) ∧
      e.p = 1 ∧ e.color = defaultEdgeColor := by
    intro e he
    rcases mem_buildPairs.mp he with ⟨i, hi, hlt, he'⟩
    subst he'
    have hub := h1 i hi
    have htn : pm.getD i (-1) = (((pm.getD i (-1)).toNat : Nat) : Int) := by omega
    have htlt : (pm.getD i (-1)).toNat < pm.length := by omega
    refine ⟨?_, htlt, htn, h2 i hi ((pm.getD i (-1)).toNat) htlt htn, rfl, rfl⟩
    show i < (pm.getD i (-1)).toNat
    omega
  refine ⟨hA, ?_, ?_, ?_, ?_⟩
  · intro i j hij hj hmap
    apply mem_buildPairs.mpr
    refine ⟨i, lt_trans hij hj, ?_, ?_⟩
    · rw [hmap]; exact_mod_cast hij
    · have hjj : ((j : Int)).toNat = j := by omega
      rw [hmap, hjj]
  · intro e1 h1m e2 h2m hor
    rcases mem_buildPairs.mp h1m with ⟨i, hi, hlt1, he1⟩
    rcases mem_buildPairs.mp h2m with ⟨j, hj, hlt2, he2⟩
    subst he1
    subst he2
    rcases hor with hf | ht
    · have hij : i = j := hf
      subst hij
      rfl
    · have ht' : (pm.getD i (-1)).toNat = (pm.getD j (-1)).toNat := ht
      have hti : pm.getD i (-1) = (((pm.getD i (-1)).toNat : Nat) : Int) := by omega
      have htlti : (pm.getD i (-1)).toNat < pm.length := by have := h1 i hi; omega
      have hpi := h2 i hi ((pm.getD i (-1)).toNat) htlti hti
      have htj : pm.getD j (-1) = (((pm.getD j (-1)).toNat : Nat) : Int) := by omega
      have htltj : (pm.getD j (-1)).toNat < pm.length := by have := h1 j hj; omega
      have hpj := h2 j hj ((pm.getD j (-1)).toNat) htltj htj
      rw [ht'] at hpi
      have hij : i = j := by
        have := hpi.symm.trans hpj
        exact_mod_cast this
      subst hij
      rfl
  · apply List.Nodup.filterMap ?_ (List.nodup_range _)
    intro a b e hea heb
    by_cases ha : (a : Int) < pm.getD a (-1)
    · rw [if_pos ha] at hea
      by_cases hb : (b : Int) < pm.getD b (-1)
      · rw [if_pos hb] at heb
        simp only [Option.mem_def] at hea heb
        have ha2 : (⟨a, (pm.getD a (-1)).toNat, 1, defaultEdgeColor⟩ : Edge) = e :=
          Option.some.inj hea
        have hb2 : (⟨b, (pm.getD b (-1)).toNat, 1, defaultEdgeColor⟩ : Edge) = e :=
          Option.some.inj heb
        have haf : a = e.fromIdx := congrArg Edge.fromIdx ha2
        have hbf : b = e.fromIdx := congrArg Edge.fromIdx hb2
        omega
      · rw [if_neg hb] at heb
        exact Option.noConfusion heb
    · rw [if_neg ha] at hea
      exact Option.noConfusion hea
  · intro i hi hun e he
    rcases mem_buildPairs.mp he with ⟨k, hk, hlt, he'⟩
    subst he'
    constructor
    · intro hfi
      have hki : k = i := hfi
      subst hki
      rw [hun] at hlt
      omega
    · intro hti
      have hti' : (pm.getD k (-1)).toNat = i := hti
      have hkv : pm.getD k (-1) = (i : Int) := by omega
      have hsym := h2 k hk i hi hkv
      rw [hun] at hsym
      omega

/-- Witness for C6 at the pair map the parser produces for "((..))":
both base pairs appear as edges with the smaller index first. -/
theorem c6_edge_list_witness :
    get_pairmap_from_secstruct "((..))" = .ok [5, 4, -1, -1, 1, 0] ∧
    (∀ i, i < ([(5 : Int), 4, -1, -1, 1, 0]).length →
      ([(5 : Int), 4, -1, -1, 1, 0]).getD i (-1) <
        (([(5 : Int), 4, -1, -1, 1, 0]).length : Int)) ∧
    (⟨0, 5, 1, defaultEdgeColor⟩ : Edge) ∈ buildPairs [(5 : Int), 4, -1, -1, 1, 0] ∧
    (⟨1, 4, 1, defaultEdgeColor⟩ : Edge) ∈ buildPairs [(5 : Int), 4, -1, -1, 1, 0] := by
  refine ⟨by decide, by decide, ?_, ?_⟩
  · exact (c6_edge_list [5, 4, -1, -1, 1, 0] (by decide) (by decide)).2.1 0 5
      (by decide) (by decide) (by decide)
  · exact (c6_edge_list [5, 4, -1, -1, 1, 0] (by decide) (by decide)).2.1 1 4
      (by decide) (by decide) (by decide)
